import Mathlib

/-!
Verification of the post-scheduling and retry subsystem of the `postfarm`
backend (`SchedulerService` in `src/backend/app/services/scheduler_service.py`,
together with the persisted `ScheduledPost` records and the scheduler router).

The embedding models:
* the persisted `ScheduledPost` record (`Post`), with timestamps as integers
  (seconds, UTC) and the post id as an opaque string token (integer ids of the
  SQLite backend are rendered in decimal, UUID ids of the Supabase backend are
  kept verbatim — exactly how Python interpolates them into job keys);
* the APScheduler job registry as a list of jobs keyed by their string id,
  with `add_job(..., replace_existing=True)` and `remove_job` semantics;
* `SchedulerService._publish_post` as a pure function from the loaded record,
  the retry count carried in the job args, the current time, and the outcome
  of the platform-publish collaborator (`Except` models raise/return);
* `SchedulerService._load_scheduled_posts` (the startup reconciler) for both
  the SQLite and the Supabase branch;
* `SchedulerService.unschedule_post` (cancel path of the scheduler router).
-/

namespace Postfarm

/-- Status enum `PostStatus` of `app/models.py`. -/
inductive PostStatus where
  | draft
  | scheduled
  | posted
  | failed
  | cancelled
deriving DecidableEq, Repr

/-- Platform enum `PlatformType` of `app/models.py`. -/
inductive PlatformType where
  | twitter
  | linkedin
deriving DecidableEq, Repr

/-- The persisted `ScheduledPost` record (`app/models.py`), restricted to the
fields the scheduler core reads or writes.  `id` is the opaque token the core
interpolates into job keys. -/
structure Post where
  id : String
  platform : PlatformType
  content : String
  scheduled_time : Int
  status : PostStatus
  posted_at : Option Int := none
  error_message : Option String := none
deriving DecidableEq, Repr

/-- Constant `self.max_retries = 3` set in `SchedulerService.__init__`. -/
def max_retries : Nat := 3

/-- Delay table `self.retry_delays = [300, 900, 3600]` set in
`SchedulerService.__init__` (seconds). -/
def retry_delays : List Int := [300, 900, 3600]

/-- The index `min(retry_count, len(self.retry_delays) - 1)` used by
`_publish_post` to look up the backoff delay. -/
def delayIndex (retry_count : Nat) : Nat :=
  min retry_count (retry_delays.length - 1)

/-- The delay-table lookup `self.retry_delays[min(retry_count, len(self.retry_delays) - 1)]`,
returned as `none` when the index would be out of bounds (Python would raise
`IndexError` there; a theorem below shows this never happens). -/
def delay_lookup (retry_count : Nat) : Option Int :=
  retry_delays.get? (delayIndex retry_count)

/-- The delay actually used by `_publish_post`; total because the lookup is
always in bounds (proved below). -/
def retryDelay (retry_count : Nat) : Int :=
  (delay_lookup retry_count).getD 0

/-- One APScheduler job as registered by `SchedulerService.schedule_post`:
its string id (`key`), its `DateTrigger` fire time, and the `args`
`[post.id, retry_count]` passed to `_publish_post`. -/
structure Job where
  key : String
  fireTime : Int
  postId : String
  retryCount : Nat
deriving DecidableEq, Repr

/-- The job id `f"post_{post.id}_{retry_count}"` built by `schedule_post`. -/
def jobKey (id : String) (retry_count : Nat) : String :=
  "post_" ++ id ++ "_" ++ toString retry_count

/-- The job that `schedule_post` registers for a post id at a fire time and
retry count. -/
def schedule_job (id : String) (fireTime : Int) (retry_count : Nat) : Job :=
  { key := jobKey id retry_count, fireTime := fireTime, postId := id,
    retryCount := retry_count }

/-- Registration `scheduler.add_job(..., replace_existing=True)`: any job with the same id
is replaced, otherwise the job is added. -/
def addJob (jobs : List Job) (j : Job) : List Job :=
  jobs.filter (fun x => x.key != j.key) ++ [j]

/-- Removal `scheduler.remove_job(job_id)`: removes the job with that id, raises
`JobLookupError` (modelled as `Except.error`) when no such job exists. -/
def remove_job (jobs : List Job) (job_id : String) : Except String (List Job) :=
  if jobs.any (fun j => j.key == job_id) then
    Except.ok (jobs.filter (fun j => j.key != job_id))
  else
    Except.error "JobLookupError"

/-- Cancel path `SchedulerService.unschedule_post`: builds `job_id = f"post_{post_id}"`
(without a retry-count suffix), calls `remove_job`, and swallows any failure
(`except Exception: logger.debug(...)`). -/
def unschedule_post (jobs : List Job) (post_id : String) : List Job :=
  match remove_job jobs ("post_" ++ post_id) with
  | Except.ok js => js
  | Except.error _ => jobs

/-- Outcome of one `_publish_post` fire event: which branch of the function
ran, the record it persisted (if any), and the job it re-registered (if any). -/
inductive FireOutcome where
  | notFound
  | invalidState (s : PostStatus)
  | published (p : Post)
  | retried (p : Post) (j : Job)
  | permanentlyFailed (p : Post)
deriving DecidableEq, Repr

/-- Fire handler `SchedulerService._publish_post` as a function of the loaded record
(`none` models `scalar_one_or_none()` finding nothing), the `retry_count`
argument, the current UTC time (`datetime.now(timezone.utc)`), and the outcome
of `self.platform_service.publish_post` (`Except.error msg` models an
exception with `str(e) = msg`). -/
def publish_post (post? : Option Post) (retry_count : Nat) (now : Int)
    (pub : Except String Unit) : FireOutcome :=
  match post? with
  | none => FireOutcome.notFound
  | some post =>
    if post.status ≠ PostStatus.scheduled ∧ post.status ≠ PostStatus.failed then
      FireOutcome.invalidState post.status
    else
      match pub with
      | Except.ok _ =>
        FireOutcome.published
          { post with status := PostStatus.posted, posted_at := some now,
                      error_message := none }
      | Except.error msg =>
        if retry_count < max_retries then
          let delay := retryDelay retry_count
          let retry_time := now + delay
          let post' := { post with
            status := PostStatus.scheduled,
            error_message := some ("Attempt " ++ toString (retry_count + 1) ++
              " failed: " ++ msg ++ ". Retrying in " ++ toString delay ++ "s"),
            scheduled_time := retry_time }
          FireOutcome.retried post' (schedule_job post.id retry_time (retry_count + 1))
        else
          FireOutcome.permanentlyFailed { post with
            status := PostStatus.failed,
            error_message := some ("Failed after " ++ toString max_retries ++
              " retry attempts. Last error: " ++ msg) }

/-- The shared state a fire event touches: the persisted post table and the
scheduler's job registry. -/
structure SystemState where
  posts : List Post
  jobs : List Job
deriving DecidableEq, Repr

/-- Lookup `select(ScheduledPost).where(ScheduledPost.id == post_id)` followed
by `scalar_one_or_none()`. -/
def findPost (posts : List Post) (id : String) : Option Post :=
  posts.find? (fun p => p.id == id)

/-- Persist step `db.commit()` of a mutated record: the row with the record's
id is replaced. -/
def savePost (posts : List Post) (p : Post) : List Post :=
  posts.map (fun q => if q.id == p.id then p else q)

/-- One `_publish_post` fire event applied to the system state: load the post,
run the publish attempt, persist the mutated record and register the retry job
per the branch taken. -/
def firePost (st : SystemState) (id : String) (retry_count : Nat) (now : Int)
    (pub : Except String Unit) : SystemState :=
  match publish_post (findPost st.posts id) retry_count now pub with
  | FireOutcome.notFound => st
  | FireOutcome.invalidState _ => st
  | FireOutcome.published p => { st with posts := savePost st.posts p }
  | FireOutcome.retried p j =>
      { posts := savePost st.posts p, jobs := addJob st.jobs j }
  | FireOutcome.permanentlyFailed p => { st with posts := savePost st.posts p }

/-- Storage access of `_publish_post`: it opens `SessionLocal()` unconditionally — it contains no
`settings.USE_SUPABASE` branch, so the Supabase table is never consulted at
fire time whatever the configured backend is. -/
def fire_publish (_useSupabase : Bool) (st : SystemState)
    (_supabaseTable : List Post) (id : String) (retry_count : Nat) (now : Int)
    (pub : Except String Unit) : SystemState :=
  firePost st id retry_count now pub

/-- The SQLite reconciler query
`select(ScheduledPost).where(status == SCHEDULED, scheduled_time > now)`. -/
def sqliteSelectScheduledFuture (table : List Post) (now : Int) : List Post :=
  table.filter (fun p =>
    p.status == PostStatus.scheduled && decide (now < p.scheduled_time))

/-- Modelled from the spec: `ScheduledPostRepository.get_all_scheduled` is
called by `_load_scheduled_posts` and exercised by the repository's tests, but
the method itself is absent from `app/database_supabase.py`.  Per the spec the
storage collaborator returns the persisted posts with `status = scheduled`
(across all users); the caller filters for future fire times itself. -/
def get_all_scheduled (table : List Post) : List Post :=
  table.filter (fun p => p.status == PostStatus.scheduled)

/-- Startup reconciler `SchedulerService._load_scheduled_posts`.  `queryError` models the storage
query raising (`some e` = an exception with message `e`).  The Supabase branch
wraps the whole load in `try/except` and logs, proceeding with an empty
schedule; the SQLite branch has only `try/finally`, so an exception propagates
out of the coroutine.  Both branches register every loaded future post via
`schedule_post(post, retry_count=0)`. -/
def load_scheduled_posts (useSupabase : Bool) (table : List Post)
    (queryError : Option String) (now : Int) : Except String (List Job) :=
  if useSupabase then
    match queryError with
    | some _ => Except.ok []
    | none =>
        Except.ok (((get_all_scheduled table).filter
            (fun p => decide (now < p.scheduled_time))).map
          (fun p => schedule_job p.id p.scheduled_time 0))
  else
    match queryError with
    | some e => Except.error e
    | none =>
        Except.ok ((sqliteSelectScheduledFuture table now).map
          (fun p => schedule_job p.id p.scheduled_time 0))

/-- State of one post's retry chain: the persisted record together with the
`retry_count` argument of the single live job for that post (`none` when no
job is registered any more). -/
structure ChainState where
  post : Post
  pendingRetry : Option Nat
deriving DecidableEq, Repr

/-- One fire event of the live job whose platform-publish attempt raises with
message `msg`, at time `now`, driving `_publish_post`. -/
def fire_fail (s : ChainState) (now : Int) (msg : String) : ChainState :=
  match s.pendingRetry with
  | none => s
  | some r =>
    match publish_post (some s.post) r now (Except.error msg) with
    | FireOutcome.retried p j => { post := p, pendingRetry := some j.retryCount }
    | FireOutcome.permanentlyFailed p => { post := p, pendingRetry := none }
    | _ => s

/-- A sequence of consecutive failing fire events, each given as
`(time, error message)`. -/
def fire_failures (s : ChainState) (events : List (Int × String)) : ChainState :=
  events.foldl (fun s e => fire_fail s e.1 e.2) s

/-- A concrete scheduled post, matching the worked example of the spec. -/
def samplePost : Post :=
  { id := "42", platform := PlatformType.twitter, content := "hello",
    scheduled_time := 1000, status := PostStatus.scheduled }

/-! Helper lemmas shared by the claim theorems. -/

lemma delayIndex_lt_length (r : Nat) : delayIndex r < retry_delays.length := by
  simp only [delayIndex, retry_delays, List.length_cons, List.length_nil]
  omega

lemma delay_lookup_isSome (r : Nat) : (delay_lookup r).isSome := by
  rcases r with _ | _ | r
  · rfl
  · rfl
  · have h : delayIndex (r + 2) = 2 := by
      simp only [delayIndex, retry_delays, List.length_cons, List.length_nil]
      omega
    simp [delay_lookup, h, retry_delays]

lemma retryDelay_cases (r : Nat) :
    retryDelay r = if r = 0 then 300 else if r = 1 then 900 else 3600 := by
  rcases r with _ | _ | r
  · rfl
  · rfl
  · have h : delayIndex (r + 2) = 2 := by
      simp only [delayIndex, retry_delays, List.length_cons, List.length_nil]
      omega
    simp [retryDelay, delay_lookup, h, retry_delays]

lemma retryDelay_pos (r : Nat) : 0 < retryDelay r := by
  rw [retryDelay_cases]
  split
  · norm_num
  · split <;> norm_num

/-- The retry branch of `_publish_post` in one equation: on a publish failure
with `retry_count < max_retries`, the persisted record and the re-registered
job are exactly these. -/
lemma publish_post_retry_eq (p : Post) (r : Nat) (now : Int) (msg : String)
    (hs : p.status = PostStatus.scheduled ∨ p.status = PostStatus.failed)
    (hr : r < max_retries) :
    publish_post (some p) r now (Except.error msg) =
      FireOutcome.retried
        { p with status := PostStatus.scheduled,
                 scheduled_time := now + retryDelay r,
                 error_message := some ("Attempt " ++ toString (r + 1) ++
                   " failed: " ++ msg ++ ". Retrying in " ++
                   toString (retryDelay r) ++ "s") }
        (schedule_job p.id (now + retryDelay r) (r + 1)) := by
  rcases hs with h | h <;> simp [publish_post, h, hr]

/-! Claim theorems. -/

/-- C10: for every `retry_count`, the index `min(retry_count, len(retry_delays) - 1)`
is strictly below the table length, the lookup returns a value (never an
`IndexError`), and `max_retries` equals the table length, so in particular
every `retry_count` admitted by the retry guard indexes the table safely. -/
theorem delay_lookup_in_bounds (r : Nat) :
    delayIndex r < retry_delays.length ∧ (delay_lookup r).isSome ∧
      max_retries = retry_delays.length :=
  ⟨delayIndex_lt_length r, delay_lookup_isSome r, rfl⟩

/-- C1: a fire event on a loadable post in a publishable status whose publish
attempt raises `msg` with `retry_count < max_retries` persists exactly
`status = scheduled`, `scheduled_time = now + delay` with
`delay = retry_delays[min(retry_count, len(retry_delays) - 1)]`, and
`error_message = "Attempt {r+1} failed: {msg}. Retrying in {delay}s"`
(all other fields unchanged), and registers exactly one new job with key
`post_{id}_{r+1}` firing at that retry time. -/
theorem retry_branch_spec (st : SystemState) (id : String) (p : Post) (r : Nat)
    (now : Int) (msg : String)
    (hfind : findPost st.posts id = some p)
    (hs : p.status = PostStatus.scheduled ∨ p.status = PostStatus.failed)
    (hr : r < max_retries) :
    firePost st id r now (Except.error msg) =
      { posts := savePost st.posts
          { p with status := PostStatus.scheduled,
                   scheduled_time := now + retryDelay r,
                   error_message := some ("Attempt " ++ toString (r + 1) ++
                     " failed: " ++ msg ++ ". Retrying in " ++
                     toString (retryDelay r) ++ "s") },
        jobs := addJob st.jobs (schedule_job p.id (now + retryDelay r) (r + 1)) } := by
  simp [firePost, hfind, publish_post_retry_eq p r now msg hs hr]

/-- Witness for C1 at the spec's worked example: post 42, first attempt, fire
at time 1000, failure message "boom". -/
theorem retry_branch_spec_witness :
    findPost [samplePost] "42" = some samplePost ∧
    (samplePost.status = PostStatus.scheduled ∨ samplePost.status = PostStatus.failed) ∧
    0 < max_retries ∧
    firePost { posts := [samplePost], jobs := [] } "42" 0 1000 (Except.error "boom") =
      { posts := savePost [samplePost]
          { samplePost with status := PostStatus.scheduled,
                            scheduled_time := 1000 + retryDelay 0,
                            error_message := some ("Attempt " ++ toString (0 + 1) ++
                              " failed: " ++ "boom" ++ ". Retrying in " ++
                              toString (retryDelay 0) ++ "s") },
        jobs := addJob [] (schedule_job samplePost.id (1000 + retryDelay 0) (0 + 1)) } :=
  ⟨rfl, Or.inl rfl, by decide,
    retry_branch_spec { posts := [samplePost], jobs := [] } "42" samplePost 0 1000 "boom"
      rfl (Or.inl rfl) (by decide)⟩

/-- C9: at a fire event occurring at or after the post's current
`scheduled_time`, the retry policy rewrites `scheduled_time` to a strictly
later instant: the persisted `retry_time = now + delay` is strictly greater
than both `now` and the previous `scheduled_time`, and the new job fires at
that same time — for every `retry_count < max_retries`. -/
theorem retry_time_monotone (p : Post) (r : Nat) (now : Int) (msg : String)
    (hs : p.status = PostStatus.scheduled ∨ p.status = PostStatus.failed)
    (hr : r < max_retries) (hfire : p.scheduled_time ≤ now) :
    ∃ p' j, publish_post (some p) r now (Except.error msg) = FireOutcome.retried p' j ∧
      now < p'.scheduled_time ∧ p.scheduled_time < p'.scheduled_time ∧
      j.fireTime = p'.scheduled_time := by
  refine ⟨_, _, publish_post_retry_eq p r now msg hs hr, ?_, ?_, rfl⟩
  · show now < now + retryDelay r
    have := retryDelay_pos r
    omega
  · show p.scheduled_time < now + retryDelay r
    have := retryDelay_pos r
    omega

/-- Witness for C9: post 42 fired exactly at its scheduled time 1000, first
attempt. -/
theorem retry_time_monotone_witness :
    (samplePost.status = PostStatus.scheduled ∨ samplePost.status = PostStatus.failed) ∧
    0 < max_retries ∧ samplePost.scheduled_time ≤ 1000 ∧
    (∃ p' j, publish_post (some samplePost) 0 1000 (Except.error "boom") =
        FireOutcome.retried p' j ∧
      1000 < p'.scheduled_time ∧ samplePost.scheduled_time < p'.scheduled_time ∧
      j.fireTime = p'.scheduled_time) :=
  ⟨Or.inl rfl, by decide, by decide,
    retry_time_monotone samplePost 0 1000 "boom" (Or.inl rfl) (by decide) (by decide)⟩

/-- C5: a fire event on a post whose loaded status is neither `scheduled` nor
`failed` leaves the whole system state untouched — no persisted field is
mutated and no job is registered — for every outcome of the publish
collaborator (so the result never depends on it being called). -/
theorem invalid_status_noop (st : SystemState) (id : String) (r : Nat) (now : Int)
    (pub : Except String Unit) (p : Post)
    (hfind : findPost st.posts id = some p)
    (h1 : p.status ≠ PostStatus.scheduled) (h2 : p.status ≠ PostStatus.failed) :
    firePost st id r now pub = st := by
  simp [firePost, publish_post, hfind, h1, h2]

/-- A post that already went out, as loaded at a duplicate fire event. -/
def postedPost : Post :=
  { id := "7", platform := PlatformType.linkedin, content := "done",
    scheduled_time := 500, status := PostStatus.posted, posted_at := some 400 }

/-- Witness for C5: a duplicate fire on the already-posted post 7 changes
nothing. -/
theorem invalid_status_noop_witness :
    findPost [postedPost] "7" = some postedPost ∧
    postedPost.status ≠ PostStatus.scheduled ∧
    postedPost.status ≠ PostStatus.failed ∧
    firePost { posts := [postedPost], jobs := [] } "7" 0 600 (Except.ok ()) =
      { posts := [postedPost], jobs := [] } :=
  ⟨rfl, by decide, by decide,
    invalid_status_noop { posts := [postedPost], jobs := [] } "7" 0 600
      (Except.ok ()) postedPost rfl (by decide) (by decide)⟩

/-- C6: a fire event on a post in status `scheduled` or `failed` whose publish
call succeeds persists exactly `status = posted`, `posted_at = now` and
`error_message = None` (clearing any previous failure message), and registers
no further job (the job registry is unchanged). -/
theorem success_clears_error (st : SystemState) (id : String) (r : Nat)
    (now : Int) (p : Post)
    (hfind : findPost st.posts id = some p)
    (hs : p.status = PostStatus.scheduled ∨ p.status = PostStatus.failed) :
    firePost st id r now (Except.ok ()) =
      { posts := savePost st.posts
          { p with status := PostStatus.posted, posted_at := some now,
                   error_message := none },
        jobs := st.jobs } := by
  rcases hs with h | h <;> simp [firePost, publish_post, hfind, h]

/-- A post whose first attempt failed and that is awaiting its retry, with the
failure recorded in `error_message`. -/
def erroredPost : Post :=
  { id := "9", platform := PlatformType.twitter, content := "retry me",
    scheduled_time := 1300, status := PostStatus.scheduled,
    error_message := some "Attempt 1 failed: boom. Retrying in 300s" }

/-- Witness for C6: the retry of post 9 succeeds at time 1300 and ends with
`status = posted` and `error_message = None`. -/
theorem success_clears_error_witness :
    findPost [erroredPost] "9" = some erroredPost ∧
    (erroredPost.status = PostStatus.scheduled ∨ erroredPost.status = PostStatus.failed) ∧
    erroredPost.error_message ≠ none ∧
    firePost { posts := [erroredPost], jobs := [] } "9" 1 1300 (Except.ok ()) =
      { posts := savePost [erroredPost]
          { erroredPost with status := PostStatus.posted, posted_at := some 1300,
                             error_message := none },
        jobs := [] } :=
  ⟨rfl, Or.inl rfl, by decide,
    success_clears_error { posts := [erroredPost], jobs := [] } "9" 1 1300
      erroredPost rfl (Or.inl rfl)⟩

/-- Counterexample to C2 as stated: after exactly `max_retries = 3` consecutive
failures (at times 1000, 1300, 1600), the persisted status of the sample post
is still `scheduled` — not `failed` — because the guard `retry_count < max_retries`
admits retry counts 0, 1 and 2 and reschedules each time. -/
theorem three_failures_not_failed :
    (fire_failures { post := samplePost, pendingRetry := some 0 }
        [(1000, "boom"), (1300, "boom"), (1600, "boom")]).post.status =
      PostStatus.scheduled ∧
    (fire_failures { post := samplePost, pendingRetry := some 0 }
        [(1000, "boom"), (1300, "boom"), (1600, "boom")]).post.status ≠
      PostStatus.failed := by
  decide

/-- C2 (amended): after exactly `max_retries + 1 = 4` consecutive failures —
the initial attempt plus `max_retries` retries — the persisted status is
`failed`, `error_message` is `"Failed after 3 retry attempts. Last error: {msg}"`
for the last failure message, and no further job is registered. -/
theorem terminal_after_four_failures (p : Post)
    (h : p.status = PostStatus.scheduled)
    (t1 : Int) (m1 : String) (t2 : Int) (m2 : String)
    (t3 : Int) (m3 : String) (t4 : Int) (m4 : String) :
    (fire_failures { post := p, pendingRetry := some 0 }
        [(t1, m1), (t2, m2), (t3, m3), (t4, m4)]).post.status = PostStatus.failed ∧
    (fire_failures { post := p, pendingRetry := some 0 }
        [(t1, m1), (t2, m2), (t3, m3), (t4, m4)]).post.error_message =
      some ("Failed after " ++ toString max_retries ++
        " retry attempts. Last error: " ++ m4) ∧
    (fire_failures { post := p, pendingRetry := some 0 }
        [(t1, m1), (t2, m2), (t3, m3), (t4, m4)]).pendingRetry = none := by
  simp [fire_failures, fire_fail, publish_post, h, max_retries, schedule_job]

/-- Witness for C2 (amended): four consecutive failures on the sample post. -/
theorem terminal_after_four_failures_witness :
    samplePost.status = PostStatus.scheduled ∧
    ((fire_failures { post := samplePost, pendingRetry := some 0 }
        [(1000, "a"), (1300, "b"), (1600, "c"), (1900, "d")]).post.status =
      PostStatus.failed ∧
    (fire_failures { post := samplePost, pendingRetry := some 0 }
        [(1000, "a"), (1300, "b"), (1600, "c"), (1900, "d")]).post.error_message =
      some ("Failed after " ++ toString max_retries ++
        " retry attempts. Last error: " ++ "d") ∧
    (fire_failures { post := samplePost, pendingRetry := some 0 }
        [(1000, "a"), (1300, "b"), (1600, "c"), (1900, "d")]).pendingRetry = none) :=
  ⟨rfl, terminal_after_four_failures samplePost rfl 1000 "a" 1300 "b" 1600 "c" 1900 "d"⟩

/-- C3: with a healthy storage query, one run of the startup reconciler over
any persisted table registers the same job list under both backends (Supabase
and SQLite), that list has exactly as many jobs as there are posts with
`status = scheduled` and a strictly future `scheduled_time` (past-due
scheduled posts are skipped), and every registered job carries
`retry_count = 0`. -/
theorem reconciler_registers_exactly_future (table : List Post) (now : Int) :
    ∃ jobs : List Job,
      load_scheduled_posts true table none now = Except.ok jobs ∧
      load_scheduled_posts false table none now = Except.ok jobs ∧
      jobs.length = (table.filter (fun p =>
        p.status == PostStatus.scheduled && decide (now < p.scheduled_time))).length ∧
      ∀ j ∈ jobs, j.retryCount = 0 := by
  refine ⟨(sqliteSelectScheduledFuture table now).map
      (fun p => schedule_job p.id p.scheduled_time 0), ?_, ?_, ?_, ?_⟩
  · have hcomm : ∀ p : Post,
        (decide (now < p.scheduled_time) && (p.status == PostStatus.scheduled)) =
        ((p.status == PostStatus.scheduled) && decide (now < p.scheduled_time)) :=
      fun p => Bool.and_comm _ _
    simp only [load_scheduled_posts, get_all_scheduled, sqliteSelectScheduledFuture,
      List.filter_filter, hcomm, ite_self]
  · rfl
  · simp [sqliteSelectScheduledFuture]
  · intro j hj
    simp only [List.mem_map] at hj
    obtain ⟨p, _, rfl⟩ := hj
    rfl

/-- Counterexample to C7 as stated: under the SQLite backend a failing storage
query makes the reconciler propagate the exception out of the coroutine (the
SQLite branch has only `try/finally`, no `except`), instead of returning
normally with an empty schedule. -/
theorem sqlite_load_error_propagates :
    load_scheduled_posts false [] (some "db error") 0 = Except.error "db error" ∧
    Except.error "db error" ≠ (Except.ok [] : Except String (List Job)) :=
  ⟨rfl, fun h => nomatch h⟩

/-- C7 (amended): when the storage query raises, the Supabase branch of the
reconciler catches the exception, logs it and returns normally with an empty
schedule, while the SQLite branch propagates the exception out of the
reconciler coroutine. -/
theorem reconciler_error_split (table : List Post) (e : String) (now : Int) :
    load_scheduled_posts true table (some e) now = Except.ok [] ∧
    load_scheduled_posts false table (some e) now = Except.error e :=
  ⟨rfl, rfl⟩

/-- The job registry after post 42 was scheduled at its first attempt: one job
with key `post_42_0`. -/
def cancelDemoJobs : List Job := [schedule_job "42" 1000 0]

/-- C4 (code bug): cancelling post 42 while its job `post_42_0` is registered
removes nothing.  `unschedule_post` builds the id `post_42` without the
retry-count suffix that `schedule_post` always appends, so `remove_job` raises
`JobLookupError`, the failure is swallowed, and the job stays registered. -/
theorem cancel_leaves_job_registered :
    unschedule_post cancelDemoJobs "42" = cancelDemoJobs ∧
    cancelDemoJobs.any (fun j => j.key == jobKey "42" 0) = true ∧
    remove_job cancelDemoJobs ("post_" ++ "42") = Except.error "JobLookupError" :=
  ⟨rfl, rfl, rfl⟩

/-- A post persisted in the Supabase store, keyed by UUID. -/
def uuidPost : Post :=
  { id := "uuid-123", platform := PlatformType.twitter, content := "cloud",
    scheduled_time := 2000, status := PostStatus.scheduled }

/-- C8 (code bug): with the Supabase backend configured and the post present
only in the Supabase table, a fire event still consults only the (empty)
SQLite session, finds no record, and does nothing — the publisher has no
backend branch, so the configured store is ignored, the post is never
published and no state changes. -/
theorem publisher_ignores_configured_backend :
    findPost [uuidPost] "uuid-123" = some uuidPost ∧
    fire_publish true { posts := [], jobs := [] } [uuidPost] "uuid-123" 0 2000
        (Except.ok ()) = { posts := [], jobs := [] } ∧
    publish_post (findPost ([] : List Post) "uuid-123") 0 2000 (Except.ok ()) =
      FireOutcome.notFound := by
  decide

end Postfarm
